import Mathlib

/-!
Shallow embedding of the go-dmr repository (package `dmr` and its
`homebrew` sub-package): the CRC-9 shift-register engine (`crc.go`), the
embedded-signalling (EMB) field decoder, the 53-byte Home Brew frame
codec, the login/authentication dispatch of the link session, and the
keepalive counters (`homebrew/homebrew.go`).

Bytes are modelled as `Nat` values (< 256 where it matters), byte buffers
as `List Nat`, machine-integer truncation as explicit `% 2^w` / `&&&`
masking exactly where the Go code truncates.
-/

namespace GoDmr

/-! ### CRC-9 engine (`crc.go`, `crc9`)

`crc9` in the source mutates a `uint16` accumulator.  One iteration of its
inner loop is `crc9step`: test the high (9th) bit, shift left inside the
16-bit word, mask the register back to 9 bits, optionally inject an input
bit into the low end, and XOR the generator 0x059 when the vacated high
bit was set.  The Go loop body runs exactly 8 times per `crc9` call. -/

/-- One iteration of the `crc9` loop body: `xor := crc&0x0100 > 0`,
`crc <<= 1` (in `uint16`), `crc &= 0x01ff`, `if feed { crc++ }`,
`if xor { crc ^= 0x0059 }`. -/
def crc9step (feed : Bool) (crc : Nat) : Nat :=
  let x := crc &&& 0x0100
  let c := (crc <<< 1) % 65536
  let c := c &&& 0x01ff
  let c := if feed then c + 1 else c
  if x > 0 then c ^^^ 0x0059 else c

/-- The counted loop of `crc9`: run `n` iterations of the loop body, each
feeding the bit `b & v > 0` and then shifting the mask `v` right once. -/
def crc9loop (b : Nat) : Nat → Nat → Nat → Nat
  | _, 0, c => c
  | v, n + 1, c => crc9loop b (v >>> 1) n (crc9step (decide (b &&& v > 0)) c)

/-- The `crc9` update from `crc.go`: `v` starts as `0x80 >> (8-bits)` and is
shifted right once per iteration; the loop body runs for `i = 0..7`,
feeding the bit `b & v > 0` each time. -/
def crc9 (crc b bits : Nat) : Nat :=
  crc9loop b (0x80 >>> (8 - bits)) 8 crc

/-- Runs the CRC-9 shift register over an explicit list of input bits, one
`crc9step` per bit. -/
def crc9run (crc : Nat) (feeds : List Bool) : Nat :=
  feeds.foldl (fun c f => crc9step f c) crc

/-- The update step as claim C6 words it: exactly `bits` shifts, fed with
the top `bits` significant bits of `b` (bit positions 7 down to `8-bits`),
most-significant-first, and no other shifts. -/
def crc9asClaimed (crc b bits : Nat) : Nat :=
  crc9run crc ((List.range bits).map (fun i => decide (b &&& (1 <<< (7 - i)) > 0)))

/-- The `i`-th (most-significant-first) of the low `w` bits of `b`. -/
def lowBitMSB (b w i : Nat) : Bool :=
  decide (b &&& (1 <<< (w - 1 - i)) > 0)

/-- C6 — counterexample.  The claim says one `crc9` update with `bits = 1`
performs a single shift, feeding only the selected bit of `b`.  At
`crc = 1`, `b = 0`, `bits = 1` the claimed behaviour yields register value
2 (one left shift), but the code performs 8 shifts and yields 0x100: the
loop body always runs 8 times, also when `bits < 8`. -/
theorem crc9_single_shift_refuted :
    crc9 1 0 1 = 0x100 ∧ crc9asClaimed 1 0 1 = 2 ∧
      crc9 1 0 1 ≠ crc9asClaimed 1 0 1 := by
  decide

/-- C6 — amended.  One `crc9` update always performs exactly 8 shift
iterations: the first `bits` of them inject the low `bits` bits of `b`
most-significant-first, and the remaining `8 - bits` iterations inject
zero bits; every iteration XORs the generator 0x059 when the vacated high
bit was set. -/
theorem crc9_update_eight_shifts (crc b bits : Nat) (h1 : 1 ≤ bits) (h2 : bits ≤ 8) :
    crc9 crc b bits =
      crc9run crc
        ((List.range bits).map (lowBitMSB b bits) ++ List.replicate (8 - bits) false) := by
  interval_cases bits <;>
    simp [crc9, crc9loop, crc9run, lowBitMSB, Nat.and_zero, List.replicate_succ,
      List.range_succ]

/-- C6 — witness for `crc9_update_eight_shifts` at `crc = 5`, `b = 0xAB`,
`bits = 3`. -/
theorem crc9_update_eight_shifts_witness :
    1 ≤ 3 ∧ 3 ≤ 8 ∧
      crc9 5 0xAB 3 =
        crc9run 5 ((List.range 3).map (lowBitMSB 0xAB 3) ++ List.replicate (8 - 3) false) :=
  ⟨by decide, by decide, crc9_update_eight_shifts 5 0xAB 3 (by decide) (by decide)⟩

/-! ### Frame codec (`homebrew/homebrew.go`)

A `Frame` mirrors the Go struct: fixed-size byte arrays become functions
out of `Fin`, the `uint32` fields become `Nat` (their 24/32-bit width is a
hypothesis where a claim needs it), each `byte(...)` conversion in the
encoder becomes an explicit `% 256`. -/

/-- `type Frame struct` from `homebrew/homebrew.go`. -/
structure Frame where
  Signature : Fin 4 → Nat
  Sequence : Nat
  SrcID : Nat
  DstID : Nat
  RepeaterID : Nat
  Flags : Nat
  StreamID : Nat
  DMR : Fin 33 → Nat

/-- Go `copy(dst, src)` semantics on the value level: overwrite the first
`min (len dst) (len src)` elements of `dst` with those of `src`, keep the
rest of `dst`. -/
def copyInto (dst src : List Nat) : List Nat :=
  match dst, src with
  | [], _ => []
  | d :: ds, [] => d :: ds
  | _ :: ds, s :: ss => s :: copyInto ds ss

/-- Go `copy(b[off:], src)` on a list: the prefix before `off` is kept,
the tail is overwritten by `src` under `copy` semantics. -/
def writeAt (b : List Nat) (off : Nat) (src : List Nat) : List Nat :=
  b.take off ++ copyInto (b.drop off) src

/-- `binary.BigEndian.PutUint32`: the four big-endian bytes of `x`. -/
def putUint32 (x : Nat) : List Nat :=
  [(x >>> 24) % 256, (x >>> 16) % 256, (x >>> 8) % 256, x % 256]

/-- `binary.BigEndian.Uint32` over four bytes. -/
def beUint32 (a b c d : Nat) : Nat :=
  (a <<< 24) ||| (b <<< 16) ||| (c <<< 8) ||| d

/-- `Frame.Bytes` from `homebrew/homebrew.go`: allocate 53 zero bytes, then
perform the assignments of the Go body in order.  Note the last statement
of the source is `copy(b[21:], f.DMR[:])` — offset 21, not 20. -/
def Frame.Bytes (f : Frame) : List Nat :=
  let b := List.replicate 53 0
  let b := writeAt b 0 [f.Signature 0, f.Signature 1, f.Signature 2, f.Signature 3]
  let b := b.set 4 f.Sequence
  let b := b.set 5 ((f.SrcID >>> 16) % 256)
  let b := b.set 6 ((f.SrcID >>> 8) % 256)
  let b := b.set 7 (f.SrcID % 256)
  let b := b.set 8 ((f.DstID >>> 16) % 256)
  let b := b.set 9 ((f.DstID >>> 8) % 256)
  let b := b.set 10 (f.DstID % 256)
  let b := writeAt b 11 (putUint32 f.RepeaterID)
  let b := b.set 15 f.Flags
  let b := writeAt b 16 (putUint32 f.StreamID)
  let b := writeAt b 21 (List.ofFn f.DMR)
  b

/-- `ParseFrame` from `homebrew/homebrew.go`: rejects any buffer whose
length is not 53, otherwise reads the fields at their fixed offsets
(`copy(f.DMR[:], data[20:])` reads the payload from offset 20). -/
def ParseFrame (data : List Nat) : Option Frame :=
  if data.length ≠ 53 then none
  else some {
    Signature := fun i => data.getD i.val 0
    Sequence := data.getD 4 0
    SrcID := ((data.getD 5 0) <<< 16) ||| ((data.getD 6 0) <<< 8) ||| data.getD 7 0
    DstID := ((data.getD 8 0) <<< 16) ||| ((data.getD 9 0) <<< 8) ||| data.getD 10 0
    RepeaterID := beUint32 (data.getD 11 0) (data.getD 12 0) (data.getD 13 0) (data.getD 14 0)
    Flags := data.getD 15 0
    StreamID := beUint32 (data.getD 16 0) (data.getD 17 0) (data.getD 18 0) (data.getD 19 0)
    DMR := fun i => data.getD (20 + i.val) 0 }

/-- Flag constants: `GroupCall`/`UnitCall` of Go type `CallType`. -/
def GroupCall : Nat := 0

/-- `UnitCall` (value 1 of Go type `CallType`). -/
def UnitCall : Nat := 1

/-- `Voice` (value 0 of Go type `FrameType`). -/
def Voice : Nat := 0

/-- `VoiceSync` (value 1 of Go type `FrameType`). -/
def VoiceSync : Nat := 1

/-- `DataSync` (value 2 of Go type `FrameType`). -/
def DataSync : Nat := 2

/-- `UnusedFrameType` (value 3 of Go type `FrameType`). -/
def UnusedFrameType : Nat := 3

/-- `Frame.CallType`: `CallType((f.Flags >> 1) & 0x01)`. -/
def Frame.CallType (f : Frame) : Nat := (f.Flags >>> 1) &&& 0x01

/-- `Frame.DataType`: `f.Flags >> 4`. -/
def Frame.DataType (f : Frame) : Nat := f.Flags >>> 4

/-- `Frame.FrameType`: `FrameType((f.Flags >> 2) & 0x03)`. -/
def Frame.FrameType (f : Frame) : Nat := (f.Flags >>> 2) &&& 0x03

/-- `Frame.Slot`: `int(f.Flags & 0x01) + 1`. -/
def Frame.Slot (f : Frame) : Nat := (f.Flags &&& 0x01) + 1

/-- A concrete frame exercising the payload region: every field zero
except the DMR payload, whose byte `i` is `i + 1` (so payload bytes are
1..33, all nonzero and pairwise distinct). -/
def exFrame : Frame :=
  { Signature := fun _ => 0, Sequence := 0, SrcID := 0, DstID := 0,
    RepeaterID := 0, Flags := 0, StreamID := 0, DMR := fun i => i.val + 1 }

/-- C1 — the encoder misplaces the payload.  For the concrete frame
`exFrame` (payload bytes 1..33, everything else zero) `Frame.Bytes` does
produce 53 bytes, but byte 20 is left at zero, the payload starts at
offset 21 (so offset 52 holds `DMR 31`), and the last payload byte
`DMR 32 = 33` appears nowhere in the buffer: the payload occupies offsets
21..52 and is silently truncated to 32 bytes, contradicting the claimed
20..52 layout. -/
theorem frame_bytes_payload_offset_bug :
    (Frame.Bytes exFrame).length = 53 ∧
    exFrame.DMR 0 = 1 ∧
    (Frame.Bytes exFrame).getD 20 0 = 0 ∧
    (Frame.Bytes exFrame).getD 21 0 = exFrame.DMR 0 ∧
    (Frame.Bytes exFrame).getD 52 0 = exFrame.DMR 31 ∧
    (Frame.Bytes exFrame).contains (exFrame.DMR 32) = false := by
  decide

/-- C2 — the decode/encode round trip fails.  For `exFrame` (all IDs and
flags within width, 33-byte payload starting with byte 1), decoding the
encoding succeeds but returns payload byte 0 as 0 instead of the original
1: the encoder writes the payload at offset 21 while the decoder reads it
from offset 20. -/
theorem frame_roundtrip_bug :
    (ParseFrame (Frame.Bytes exFrame)).isSome = true ∧
    (ParseFrame (Frame.Bytes exFrame)).map (fun g => g.DMR 0) = some 0 ∧
    exFrame.DMR 0 = 1 := by
  decide

/-- C7 — `ParseFrame` succeeds exactly on 53-byte buffers: any other
length is rejected with the length error, and no further validation is
performed on a 53-byte input. -/
theorem parseFrame_length_check (data : List Nat) :
    (ParseFrame data).isSome = true ↔ data.length = 53 := by
  by_cases h : data.length = 53 <;> simp [ParseFrame, h]

set_option maxRecDepth 4096 in
/-- Bit-field extraction facts about a byte, checked over all 256
values. -/
theorem byte_field_extract : ∀ y : Fin 256,
    ((y.val >>> 1) &&& 1 = if y.val.testBit 1 then 1 else 0) ∧
    ((y.val >>> 2) &&& 3 = y.val / 4 % 4) ∧
    (y.val >>> 4 = y.val / 16) ∧
    (y.val &&& 1 = y.val % 2) := by
  decide

/-- C9 — flag accessor semantics, for every flags byte: `CallType` is bit
1 (1 = unit call), `FrameType` is bits 2–3, `DataType` is bits 4–7,
`Slot` is bit 0 plus 1 and hence always 1 or 2; and at the concrete flags
byte 0b00010011 the accessors give slot 2, unit call, voice frame and
data type 1. -/
theorem frame_flag_accessors (f : Frame) (h : f.Flags < 256) :
    f.CallType = (if f.Flags.testBit 1 then UnitCall else GroupCall) ∧
    f.FrameType = f.Flags / 4 % 4 ∧
    f.DataType = f.Flags / 16 ∧
    f.Slot = f.Flags % 2 + 1 ∧
    (f.Slot = 1 ∨ f.Slot = 2) ∧
    (f.Flags = 0b00010011 →
      f.Slot = 2 ∧ f.CallType = UnitCall ∧ f.FrameType = Voice ∧ f.DataType = 1) := by
  obtain ⟨e1, e2, e3, e4⟩ := byte_field_extract ⟨f.Flags, h⟩
  refine ⟨?_, ?_, ?_, ?_, ?_, ?_⟩
  · simpa [Frame.CallType, UnitCall, GroupCall] using e1
  · simpa [Frame.FrameType] using e2
  · simpa [Frame.DataType] using e3
  · simp [Frame.Slot, e4]
  · simp only [Frame.Slot, e4]; omega
  · intro hf
    simp only [Frame.Slot, Frame.CallType, Frame.FrameType, Frame.DataType, hf,
      UnitCall, Voice]
    decide

/-- A concrete frame with flags byte 0b00010011 and all other fields
zero. -/
def exFlagsFrame : Frame :=
  { Signature := fun _ => 0, Sequence := 0, SrcID := 0, DstID := 0,
    RepeaterID := 0, Flags := 0b00010011, StreamID := 0, DMR := fun _ => 0 }

/-- C9 — witness for `frame_flag_accessors` at the frame whose flags byte
is 0b00010011. -/
theorem frame_flag_accessors_witness :
    exFlagsFrame.Flags < 256 ∧
    (exFlagsFrame.CallType = (if exFlagsFrame.Flags.testBit 1 then UnitCall else GroupCall) ∧
     exFlagsFrame.FrameType = exFlagsFrame.Flags / 4 % 4 ∧
     exFlagsFrame.DataType = exFlagsFrame.Flags / 16 ∧
     exFlagsFrame.Slot = exFlagsFrame.Flags % 2 + 1 ∧
     (exFlagsFrame.Slot = 1 ∨ exFlagsFrame.Slot = 2) ∧
     (exFlagsFrame.Flags = 0b00010011 →
       exFlagsFrame.Slot = 2 ∧ exFlagsFrame.CallType = UnitCall ∧
       exFlagsFrame.FrameType = Voice ∧ exFlagsFrame.DataType = 1)) :=
  ⟨by decide, frame_flag_accessors exFlagsFrame (by decide)⟩

/-! ### Embedded signalling parser (`ParseEMB`)

The `bit.Bits` type and the `quadres_16_7` checker live in files of this
repository that are not present here; following the spec, a bit sequence
is a `List Bool` and the quadratic-residue parity check is an external
capability `check : List Bool → Bool` passed in as a parameter. -/

/-- Modelled from the spec: the constant `EMBBits`, the width of the EMB
field ("the expected 16 bits"); its defining file is not present here. -/
def EMBBits : Nat := 16

/-- The three failure cases of `ParseEMB`: wrong input width, parity
checksum rejection, nonzero parity-indicator (reserved) bit. -/
inductive EMBError where
  | badLength
  | checksum
  | reservedBit
deriving DecidableEq

/-- The decoded EMB field: `ColorCode` and `LCSS`, both `uint8` in the
source. -/
structure EMB where
  ColorCode : Nat
  LCSS : Nat
deriving DecidableEq

/-- `ParseEMB` from the EMB file: rejects inputs whose width is not
`EMBBits`, inputs rejected by the quadratic-residue check, and inputs
whose bit 4 is nonzero; otherwise packs bits 0..3 into `ColorCode` and
bits 5..6 into `LCSS`, most-significant-first.  The external
`quadres_16_7.Check` is the parameter `check`. -/
def ParseEMB (check : List Bool → Bool) (bits : List Bool) : Except EMBError EMB :=
  if bits.length ≠ EMBBits then .error .badLength
  else if !(check bits) then .error .checksum
  else if bits.getD 4 false then .error .reservedBit
  else .ok {
    ColorCode := ((bits.getD 0 false).toNat <<< 3) ||| ((bits.getD 1 false).toNat <<< 2) |||
                 ((bits.getD 2 false).toNat <<< 1) ||| (bits.getD 3 false).toNat
    LCSS := ((bits.getD 5 false).toNat <<< 1) ||| (bits.getD 6 false).toNat }

/-- C3 — `ParseEMB` is total and validating: for every parity capability
and every bit-sequence input it succeeds exactly when the input is 16
bits long, the parity check accepts it, and the parity-indicator bit 4 is
zero; in every other case it returns a failure, so a returned EMB value
never comes from an input with a nonzero reserved bit. -/
theorem parseEMB_total_validating (check : List Bool → Bool) (bits : List Bool) :
    (ParseEMB check bits).isOk = true ↔
      (bits.length = EMBBits ∧ check bits = true ∧ bits.getD 4 false = false) := by
  by_cases h1 : bits.length = EMBBits <;>
    by_cases h2 : check bits <;>
      by_cases h3 : bits.getD 4 false <;>
        simp_all [ParseEMB, Except.isOk, Except.toBool]

/-- C8 — on success, `ParseEMB` returns `ColorCode` equal to bits 0..3
packed most-significant-first (hence at most 15) and `LCSS` equal to bits
5..6 packed most-significant-first (hence at most 3). -/
theorem parseEMB_success_fields (check : List Bool → Bool) (bits : List Bool)
    (e : EMB) (h : ParseEMB check bits = .ok e) :
    e.ColorCode =
      8 * (bits.getD 0 false).toNat + 4 * (bits.getD 1 false).toNat +
        2 * (bits.getD 2 false).toNat + (bits.getD 3 false).toNat ∧
    e.ColorCode ≤ 15 ∧
    e.LCSS = 2 * (bits.getD 5 false).toNat + (bits.getD 6 false).toNat ∧
    e.LCSS ≤ 3 := by
  have he : e = {
      ColorCode := ((bits.getD 0 false).toNat <<< 3) ||| ((bits.getD 1 false).toNat <<< 2) |||
                   ((bits.getD 2 false).toNat <<< 1) ||| (bits.getD 3 false).toNat
      LCSS := ((bits.getD 5 false).toNat <<< 1) ||| (bits.getD 6 false).toNat } := by
    by_cases h1 : bits.length = EMBBits <;>
      by_cases h2 : check bits <;>
        by_cases h3 : bits.getD 4 false <;>
          simp_all [ParseEMB]
  subst he
  cases bits.getD 0 false <;> cases bits.getD 1 false <;>
    cases bits.getD 2 false <;> cases bits.getD 3 false <;>
      cases bits.getD 5 false <;> cases bits.getD 6 false <;> decide

/-- C8 — witness for `parseEMB_success_fields`: the all-zero 16-bit input
under the all-accepting parity capability parses to color code 0 and
LCSS 0. -/
theorem parseEMB_success_fields_witness :
    ParseEMB (fun _ => true) (List.replicate 16 false) = .ok ⟨0, 0⟩ ∧
    ((0 : Nat) =
      8 * ((List.replicate 16 false).getD 0 false).toNat +
        4 * ((List.replicate 16 false).getD 1 false).toNat +
        2 * ((List.replicate 16 false).getD 2 false).toNat +
        ((List.replicate 16 false).getD 3 false).toNat ∧
     (0 : Nat) ≤ 15 ∧
     (0 : Nat) = 2 * ((List.replicate 16 false).getD 5 false).toNat +
        ((List.replicate 16 false).getD 6 false).toNat ∧
     (0 : Nat) ≤ 3) :=
  ⟨rfl,
   parseEMB_success_fields (fun _ => true) (List.replicate 16 false) ⟨0, 0⟩ rfl⟩

/-! ### Link session (`homebrew/homebrew.go`, `Link.parse`)

`Link.parse` consumes queued datagrams and drives the `authStatus` state
machine.  One queue element is modelled as one `linkParse` step over the
master-side state (status and captured secret); the outcome records
whether the dispatch loop keeps looping or the goroutine returns. -/

/-- `authStatus` from `homebrew/homebrew.go` (`authNone` is the
NotAuthenticated state, `authBegin` Authenticating, `authDone`
Authenticated, `authFail` Failed). -/
inductive AuthStatus where
  | authNone
  | authBegin
  | authDone
  | authFail
deriving DecidableEq

/-- The master-side fields of `Link` that `Link.parse` mutates: the auth
status and the captured session secret (salt). -/
structure MasterState where
  status : AuthStatus
  secret : List Nat
deriving DecidableEq

/-- Outcome of handling one queued datagram: either the dispatch loop
continues with the given state, or the `parse` goroutine executes
`return` and exits with the given state. -/
inductive StepResult where
  | looped (m : MasterState)
  | exited (m : MasterState)
deriving DecidableEq

/-- Modelled from the spec: the 4-byte data-frame signature (`DMRData`,
ASCII "DMRD"); its defining file is not present here. -/
def DMRData : List Nat := [68, 77, 82, 68]

/-- Modelled from the spec: the known 6-byte master NAK signature
(`MasterNAK`, ASCII "MSTNAK"); its defining file is not present here. -/
def MasterNAK : List Nat := [77, 83, 84, 78, 65, 75]

/-- Modelled from the spec: the known 6-byte master ACK signature
(`MasterACK`, ASCII "MSTACK"); its defining file is not present here. -/
def MasterACK : List Nat := [77, 83, 84, 65, 67, 75]

/-- Modelled from the spec: a byte is an ASCII hex digit (`0`–`9`,
`a`–`f`, `A`–`F`), as accepted by the Go standard library hex decoder. -/
def isHexDigit (c : Nat) : Bool :=
  decide ((48 ≤ c ∧ c ≤ 57) ∨ (97 ≤ c ∧ c ≤ 102) ∨ (65 ≤ c ∧ c ≤ 70))

/-- Modelled from the spec: `hex.DecodeString` succeeds exactly when the
input has even length and every byte is an ASCII hex digit (the decoded
repeater ID itself is only logged, so only success matters here). -/
def hexDecodeOk (s : List Nat) : Bool :=
  s.length % 2 == 0 && s.all isHexDigit

/-- One iteration of `Link.parse` from `homebrew/homebrew.go`, for one
queued datagram `data`: drop packets under 4 bytes, then dispatch on the
auth status.  In `authNone`/`authBegin` a data-frame-signature packet or
(in `authNone`) a short packet makes the goroutine `return`; otherwise
the reply is hex-validated and compared against the NAK/ACK signatures.
In `authDone` only data-frame packets are handled, a frame decode error
makes the goroutine `return`. -/
def linkParse (m : MasterState) (data : List Nat) : StepResult :=
  if data.length < 4 then .looped m
  else
    match m.status with
    | .authNone =>
      if data.take 4 = DMRData then .exited m
      else if data.length < 14 then .exited m
      else if hexDecodeOk ((data.drop 6).take 8) = false then
        .looped { m with status := .authFail }
      else if data.take 6 = MasterNAK then .looped { m with status := .authFail }
      else if data.take 6 = MasterACK then
        .looped { status := .authBegin, secret := data.drop 14 }
      else .looped { m with status := .authFail }
    | .authBegin =>
      if data.take 4 = DMRData then .exited m
      else if data.length < 14 then .looped { m with status := .authFail }
      else if hexDecodeOk ((data.drop 6).take 8) = false then
        .looped { m with status := .authFail }
      else if data.take 6 = MasterNAK then .looped { m with status := .authFail }
      else if data.take 6 = MasterACK then .looped { m with status := .authDone }
      else .looped { m with status := .authFail }
    | .authDone =>
      if data.take 4 = DMRData then
        match ParseFrame data with
        | none => .exited m
        | some _ => .looped m
      else .looped m
    | .authFail => .looped m

/-- C4 — login replies in `authNone`: a ≥14-byte reply (that is not a
data frame) whose first 6 bytes are the NAK signature moves the session
to Failed; one whose first 6 bytes are the ACK signature and whose bytes
6..13 are hex moves it to Authenticating and stores exactly the bytes
from offset 14 on as the secret; every other such reply moves it to
Failed. -/
theorem login_reply_transitions (m : MasterState) (data : List Nat)
    (hst : m.status = .authNone) (hlen : 14 ≤ data.length)
    (hdmr : data.take 4 ≠ DMRData) :
    (data.take 6 = MasterNAK →
      linkParse m data = .looped ⟨.authFail, m.secret⟩) ∧
    (data.take 6 = MasterACK → hexDecodeOk ((data.drop 6).take 8) = true →
      linkParse m data = .looped ⟨.authBegin, data.drop 14⟩) ∧
    (¬(data.take 6 = MasterACK ∧ hexDecodeOk ((data.drop 6).take 8) = true) →
      linkParse m data = .looped ⟨.authFail, m.secret⟩) := by
  obtain ⟨st, secret⟩ := m
  simp only at hst
  subst hst
  have h4 : ¬ data.length < 4 := by omega
  have h14 : ¬ data.length < 14 := by omega
  refine ⟨?_, ?_, ?_⟩
  · intro hnak
    have hack : ¬ data.take 6 = MasterACK := by
      rw [hnak]; decide
    by_cases hx : hexDecodeOk ((data.drop 6).take 8) = false <;>
      simp [linkParse, h4, h14, hdmr, hnak, hack, hx]
  · intro hack hx
    have hnak : ¬ data.take 6 = MasterNAK := by
      rw [hack]; decide
    simp [linkParse, h4, h14, hdmr, hack, hnak, hx]
    decide
  · intro hother
    by_cases hx : hexDecodeOk ((data.drop 6).take 8) = false
    · simp [linkParse, h4, h14, hdmr, hx]
    · have hack : ¬ data.take 6 = MasterACK := by
        intro hc
        exact hother ⟨hc, by revert hx; cases hexDecodeOk ((data.drop 6).take 8) <;> simp⟩
      by_cases hnak : data.take 6 = MasterNAK <;>
        simp [linkParse, h4, h14, hdmr, hack, hnak, hx]

/-- A concrete ≥14-byte ACK login reply: "MSTACK" + "00000000" + two salt
bytes. -/
def exLoginReply : List Nat :=
  [77, 83, 84, 65, 67, 75, 48, 48, 48, 48, 48, 48, 48, 48, 222, 173]

/-- C4 — witness for `login_reply_transitions` at the NotAuthenticated
session and the concrete ACK reply `exLoginReply`. -/
theorem login_reply_transitions_witness :
    (MasterState.mk .authNone []).status = .authNone ∧
    14 ≤ exLoginReply.length ∧
    exLoginReply.take 4 ≠ DMRData ∧
    ((exLoginReply.take 6 = MasterNAK →
        linkParse ⟨.authNone, []⟩ exLoginReply =
          .looped ⟨.authFail, (MasterState.mk .authNone []).secret⟩) ∧
     (exLoginReply.take 6 = MasterACK →
        hexDecodeOk ((exLoginReply.drop 6).take 8) = true →
        linkParse ⟨.authNone, []⟩ exLoginReply =
          .looped ⟨.authBegin, exLoginReply.drop 14⟩) ∧
     (¬(exLoginReply.take 6 = MasterACK ∧
          hexDecodeOk ((exLoginReply.drop 6).take 8) = true) →
        linkParse ⟨.authNone, []⟩ exLoginReply =
          .looped ⟨.authFail, (MasterState.mk .authNone []).secret⟩)) :=
  ⟨rfl, by decide, by decide,
   login_reply_transitions ⟨.authNone, []⟩ exLoginReply rfl (by decide) (by decide)⟩

/-- A concrete 10-byte login reply: "MSTNAK0123". -/
def exShortReply : List Nat := [77, 83, 84, 78, 65, 75, 48, 49, 50, 51]

/-- C5 — the code does not fail the session on a short login reply.  On
the 10-byte reply "MSTNAK0123" in NotAuthenticated, `Link.parse` hits the
bare `return` in the `size < 14` branch: the goroutine exits with the
status still `authNone`, instead of moving it to `authFail` as the spec
requires. -/
theorem login_short_reply_no_fail :
    exShortReply.length = 10 ∧
    4 ≤ exShortReply.length ∧
    linkParse ⟨.authNone, []⟩ exShortReply = .exited ⟨.authNone, []⟩ := by
  decide

/-! ### Keepalive counters (`Link.keepAlive`)

Each iteration of the keepalive loop atomically increments the `uint32`
outstanding-ping counter and the `uint64` total-sent counter, then sends
the ping.  No other code in the source touches either counter.  The
counters start at the Go zero value. -/

/-- The keepalive counter pair: `outstanding uint32` and `sent uint64`,
modelled as `Nat` with explicit wrap-around. -/
structure KeepaliveCounters where
  outstanding : Nat
  sent : Nat

/-- One iteration of `Link.keepAlive`:
`atomic.AddUint32(&outstanding, 1)` and `atomic.AddUint64(&sent, 1)`. -/
def keepAliveTick (k : KeepaliveCounters) : KeepaliveCounters :=
  { outstanding := (k.outstanding + 1) % 2 ^ 32, sent := (k.sent + 1) % 2 ^ 64 }

/-- The counters after `n` keepalive iterations, starting from the zero
value. -/
def keepAliveCounters : Nat → KeepaliveCounters
  | 0 => ⟨0, 0⟩
  | n + 1 => keepAliveTick (keepAliveCounters n)

/-- Closed form of the keepalive counters. -/
theorem keepAliveCounters_closed (n : Nat) :
    keepAliveCounters n = ⟨n % 2 ^ 32, n % 2 ^ 64⟩ := by
  induction n with
  | zero => rfl
  | succ n ih =>
    simp only [keepAliveCounters, ih, keepAliveTick]
    refine congrArg₂ KeepaliveCounters.mk ?_ ?_ <;> omega

/-- C10 — after any number of keepalive iterations the outstanding-ping
counter equals the total-sent counter truncated to 32 bits (both counters
having been incremented once per iteration and never decremented). -/
theorem keepalive_outstanding_eq_sent (n : Nat) :
    (keepAliveCounters n).outstanding = (keepAliveCounters n).sent % 2 ^ 32 ∧
    (keepAliveCounters n).outstanding = n % 2 ^ 32 ∧
    (keepAliveCounters n).sent = n % 2 ^ 64 := by
  rw [keepAliveCounters_closed]
  refine ⟨?_, rfl, rfl⟩
  exact (Nat.mod_mod_of_dvd n (by norm_num)).symm

end GoDmr
